import Mathlib

/-!
# Verification of the OpenAI ↔ Gemini proxy translator

Shallow embedding of the request mapper, the single-shot response
translator (both deployment variants) and the streaming re-framer of the
repository, together with proofs of the specification claims.

Sources embedded:
* `src/gemini-converter-vercel/api/index.js`  — streaming proxy with the
  empty-content fallback policy (namespace `Converter`);
* `src/unnamed/part_000`                      — streaming proxy without the
  fallback policy (namespace `Baseline`);
* `src/unnamed/part_001`                      — Vercel variant that rejects
  streaming requests (namespace `Vercel`).

JavaScript strings are modelled as `List Char` where positional scanning
matters (the stream buffer) and as `String` elsewhere; all characters
involved in the scanning logic are in the Basic Multilingual Plane, where
JavaScript's UTF-16 indices coincide with character indices.
-/

namespace GeminiProxy

/-- A JavaScript value produced by `JSON.parse`.  Numbers are modelled as
rationals (every JSON numeral denotes a rational; no claim depends on
IEEE-754 rounding). -/
inductive JsValue where
  | null : JsValue
  | bool (b : Bool) : JsValue
  | num (q : Rat) : JsValue
  | str (s : String) : JsValue
  | arr (elems : List JsValue) : JsValue
  | obj (fields : List (String × JsValue)) : JsValue

/-- JavaScript truthiness of a `JsValue` (`NaN` is outside the model). -/
def jsTruthy : JsValue → Bool
  | .null => false
  | .bool b => b
  | .num q => if q = 0 then false else true
  | .str s => !s.isEmpty
  | .arr _ => true
  | .obj _ => true

/-- Property access `v.key` (and `v?.key`) on a parsed JSON value.  For a
duplicate key `JSON.parse` keeps the last occurrence, so lookup scans from
the right.  Access on a non-object yields `undefined` (here `none`); on
`null` the source throws inside a `try` block whose handler discards the
frame, which is observationally the same as `none` for every use below. -/
def jsGetField : JsValue → String → Option JsValue
  | .obj fields, key => (fields.reverse.find? (fun f => f.fst == key)).map (·.snd)
  | _, _ => none

/-- Index access `v?.[i]` on a parsed JSON value.  On a JS string this
would yield a one-character string, but every use below immediately
performs a property access on the result, which yields `undefined` either
way, so returning `none` for non-arrays is observationally faithful. -/
def jsGetIndex : JsValue → Nat → Option JsValue
  | .arr elems, i => elems[i]?
  | _, _ => none

/-- JSON insignificant whitespace (RFC 8259 §2). -/
def jsonWs (c : Char) : Bool :=
  c = ' ' || c = '\t' || c = '\n' || c = '\r'

/-- Skip insignificant JSON whitespace. -/
def skipWs (cs : List Char) : List Char :=
  cs.dropWhile jsonWs

/-- Value of one hexadecimal digit. -/
def hexDigitVal (c : Char) : Option Nat :=
  if '0' ≤ c ∧ c ≤ '9' then some (c.toNat - 48)
  else if 'a' ≤ c ∧ c ≤ 'f' then some (c.toNat - 87)
  else if 'A' ≤ c ∧ c ≤ 'F' then some (c.toNat - 55)
  else none

/-- Body of a JSON string literal, after the opening quote: returns the
decoded string and the input after the closing quote.  Escapes follow RFC
8259; a `\u` surrogate pair is combined into one scalar.  A lone surrogate
(representable in a JS string but not in a Lean `String`) decodes to
U+FFFD — a deviation no claim touches.  Unescaped control characters are
rejected, as `JSON.parse` rejects them.  Structural recursion on a fuel
argument keeps concrete runs kernel-reducible; every step consumes at
least one input character, so fuel `|input| + 1` never runs out. -/
def parseStringBody : Nat → List Char → List Char → Option (String × List Char)
  | 0, _, _ => none
  | _ + 1, '"' :: rest, acc => some (acc.reverse.asString, rest)
  | fuel + 1, '\\' :: '"' :: rest, acc => parseStringBody fuel rest ('"' :: acc)
  | fuel + 1, '\\' :: '\\' :: rest, acc => parseStringBody fuel rest ('\\' :: acc)
  | fuel + 1, '\\' :: '/' :: rest, acc => parseStringBody fuel rest ('/' :: acc)
  | fuel + 1, '\\' :: 'b' :: rest, acc => parseStringBody fuel rest ('\x08' :: acc)
  | fuel + 1, '\\' :: 'f' :: rest, acc => parseStringBody fuel rest ('\x0c' :: acc)
  | fuel + 1, '\\' :: 'n' :: rest, acc => parseStringBody fuel rest ('\n' :: acc)
  | fuel + 1, '\\' :: 'r' :: rest, acc => parseStringBody fuel rest ('\r' :: acc)
  | fuel + 1, '\\' :: 't' :: rest, acc => parseStringBody fuel rest ('\t' :: acc)
  | fuel + 1, '\\' :: 'u' :: a :: b :: c :: d :: rest, acc =>
    (match hexDigitVal a, hexDigitVal b, hexDigitVal c, hexDigitVal d with
     | some ha, some hb, some hc, some hd =>
       let code := ((ha * 16 + hb) * 16 + hc) * 16 + hd
       if 0xD800 ≤ code ∧ code ≤ 0xDBFF then
         match rest with
         | '\\' :: 'u' :: a2 :: b2 :: c2 :: d2 :: rest2 =>
           (match hexDigitVal a2, hexDigitVal b2, hexDigitVal c2, hexDigitVal d2 with
            | some ha2, some hb2, some hc2, some hd2 =>
              let code2 := ((ha2 * 16 + hb2) * 16 + hc2) * 16 + hd2
              if 0xDC00 ≤ code2 ∧ code2 ≤ 0xDFFF then
                parseStringBody fuel rest2
                  (Char.ofNat (0x10000 + (code - 0xD800) * 0x400 + (code2 - 0xDC00)) :: acc)
              else parseStringBody fuel rest2 ('�' :: acc)
            | _, _, _, _ => none)
         | _ => parseStringBody fuel rest ('�' :: acc)
       else if 0xDC00 ≤ code ∧ code ≤ 0xDFFF then
         parseStringBody fuel rest ('�' :: acc)
       else
         parseStringBody fuel rest (Char.ofNat code :: acc)
     | _, _, _, _ => none)
  | _ + 1, '\\' :: _, _ => none
  | fuel + 1, c :: rest, acc =>
    if c.toNat < 32 then none else parseStringBody fuel rest (c :: acc)
  | _ + 1, [], _ => none

/-- Natural number denoted by a list of decimal digits. -/
def digitsToNat (ds : List Char) : Nat :=
  ds.foldl (fun n c => n * 10 + (c.toNat - 48)) 0

/-- Optional fraction part `.digit+` of a JSON numeral: returns the
fraction digits (empty when absent) and the rest. -/
def parseFracDigits : List Char → Option (List Char × List Char)
  | '.' :: r =>
    let p := r.span (fun c => c.isDigit)
    if p.1.isEmpty then none else some (p.1, p.2)
  | cs => some ([], cs)

/-- Optional exponent part `(e|E)(+|-)?digit+` of a JSON numeral: returns
the signed exponent (0 when absent) and the rest. -/
def parseExpPart : List Char → Option (Int × List Char)
  | c :: r =>
    if c = 'e' ∨ c = 'E' then
      let sr : Int × List Char :=
        match r with
        | '+' :: r2 => (1, r2)
        | '-' :: r2 => (-1, r2)
        | _ => (1, r)
      let p := sr.2.span (fun ch => ch.isDigit)
      if p.1.isEmpty then none else some (sr.1 * (digitsToNat p.1 : Int), p.2)
    else some (0, c :: r)
  | [] => some (0, [])

/-- A JSON numeral `-? int frac? exp?` (RFC 8259 §6): leading zeros are
rejected, exactly as `JSON.parse` rejects them. -/
def parseNumber (cs : List Char) : Option (JsValue × List Char) :=
  let sg : Bool × List Char :=
    match cs with
    | '-' :: r => (true, r)
    | _ => (false, cs)
  let ip := sg.2.span (fun c => c.isDigit)
  if ip.1.isEmpty then none
  else if ip.1.head? = some '0' ∧ ip.1.length ≠ 1 then none
  else
    match parseFracDigits ip.2 with
    | none => none
    | some (fracDs, cs3) =>
      match parseExpPart cs3 with
      | none => none
      | some (expv, cs4) =>
        let mant : Int := (digitsToNat (ip.1 ++ fracDs) : Int)
        let signed : Int := if sg.1 then -mant else mant
        let q : Rat := (signed : Rat) * (10 : Rat) ^ (expv - (fracDs.length : Int))
        some (.num q, cs4)

/-- Defunctionalised state of the recursive-descent JSON parser: parsing a
value, the items of an array, or the members of an object. -/
inductive ParseMode where
  | value : ParseMode
  | arrItems (acc : List JsValue) : ParseMode
  | objItems (acc : List (String × JsValue)) : ParseMode

/-- One recursive-descent JSON parser (model of `JSON.parse`'s grammar),
structurally recursive on a fuel argument so that concrete runs reduce in
the kernel.  Along every recursion path at least one input character is
consumed per two fuel units, so fuel `2·|input| + 4` never runs out. -/
def parseCore : Nat → ParseMode → List Char → Option (JsValue × List Char)
  | 0, _, _ => none
  | fuel + 1, ParseMode.value, cs =>
    match skipWs cs with
    | 'n' :: 'u' :: 'l' :: 'l' :: rest => some (.null, rest)
    | 't' :: 'r' :: 'u' :: 'e' :: rest => some (.bool true, rest)
    | 'f' :: 'a' :: 'l' :: 's' :: 'e' :: rest => some (.bool false, rest)
    | '"' :: rest => (parseStringBody (rest.length + 1) rest []).map (fun p => (.str p.1, p.2))
    | '[' :: rest =>
      (match skipWs rest with
       | ']' :: r2 => some (.arr [], r2)
       | _ => parseCore fuel (ParseMode.arrItems []) rest)
    | '{' :: rest =>
      (match skipWs rest with
       | '}' :: r2 => some (.obj [], r2)
       | _ => parseCore fuel (ParseMode.objItems []) rest)
    | rest => parseNumber rest
  | fuel + 1, ParseMode.arrItems acc, cs =>
    match parseCore fuel ParseMode.value cs with
    | none => none
    | some (v, rest) =>
      match skipWs rest with
      | ',' :: r2 => parseCore fuel (ParseMode.arrItems (acc ++ [v])) r2
      | ']' :: r2 => some (.arr (acc ++ [v]), r2)
      | _ => none
  | fuel + 1, ParseMode.objItems acc, cs =>
    match skipWs cs with
    | '"' :: rest =>
      (match parseStringBody (rest.length + 1) rest [] with
       | none => none
       | some (key, rest2) =>
         match skipWs rest2 with
         | ':' :: rest3 =>
           (match parseCore fuel ParseMode.value rest3 with
            | none => none
            | some (v, rest4) =>
              match skipWs rest4 with
              | ',' :: r5 => parseCore fuel (ParseMode.objItems (acc ++ [(key, v)])) r5
              | '}' :: r5 => some (.obj (acc ++ [(key, v)]), r5)
              | _ => none)
         | _ => none)
    | _ => none

/-- Model of `JSON.parse`: parse one value, allow surrounding whitespace,
require the whole input to be consumed; `none` models the thrown
`SyntaxError`. -/
def jsonParse (cs : List Char) : Option JsValue :=
  match parseCore (2 * cs.length + 4) ParseMode.value cs with
  | some (v, rest) => if (skipWs rest).isEmpty then some v else none
  | none => none

/-- The ECMAScript whitespace and line-terminator set stripped by
`String.prototype.trim`. -/
def jsWhitespaceChar (c : Char) : Bool :=
  let n := c.toNat
  n = 9 || n = 10 || n = 11 || n = 12 || n = 13 || n = 32 || n = 160 ||
  n = 0x1680 || (0x2000 ≤ n && n ≤ 0x200A) || n = 0x2028 || n = 0x2029 ||
  n = 0x202F || n = 0x205F || n = 0x3000 || n = 0xFEFF

/-- Model of `String.prototype.trim`. -/
def jsTrim (s : String) : String :=
  (((s.toList.dropWhile jsWhitespaceChar).reverse.dropWhile jsWhitespaceChar).reverse).asString

/-- `a || b` on JS strings: an empty string is falsy. -/
def jsOrString (v : Option String) (dflt : String) : String :=
  match v with
  | some s => if s.isEmpty then dflt else s
  | none => dflt

/-! ## Dialect-A request (OpenAI chat completion) -/

/-- One chat message of the inbound ChatRequest. -/
structure Message where
  role : String
  content : String

/-- The inbound ChatRequest body.  `max_tokens` and `temperature` are JS
numbers; integers and rationals model them (`NaN` is outside the model,
where both the source's truthiness test and this embedding treat the value
like `0`). -/
structure ChatRequest where
  messages : List Message
  model : Option String := none
  max_tokens : Option Int := none
  temperature : Option Rat := none
  stream : Option Bool := none

/-! ## Dialect-B request (Gemini generateContent) -/

/-- One text part of a Gemini `Content` entry. -/
structure ReqPart where
  text : String

/-- One Gemini `Content` entry. -/
structure Content where
  role : String
  parts : List ReqPart

/-- One `safetySettings` entry. -/
structure SafetySetting where
  category : String
  threshold : String

/-- The Gemini `generationConfig` record; a missing field models a JS
property that was never assigned. -/
structure GenerationConfig where
  maxOutputTokens : Option Int := none
  temperature : Option Rat := none

/-- The outbound Gemini generation request. -/
structure GenerationRequest where
  contents : List Content
  generationConfig : GenerationConfig
  safetySettings : List SafetySetting

/-- Embeds `openaiToGeminiRequest` (identical in all three source files).
The truthiness guards `if (openaiRequest.max_tokens)` and
`if (openaiRequest.temperature)` assign the config field only for a
present non-zero value; the message loop pushes one single-part `Content`
per message, mapping role `'assistant'` to `'model'` and every other role
to `'user'`. -/
def openaiToGeminiRequest (openaiRequest : ChatRequest) : GenerationRequest :=
  { contents :=
      openaiRequest.messages.map (fun message =>
        { role := if message.role = "assistant" then "model" else "user",
          parts := [{ text := message.content }] }),
    generationConfig :=
      { maxOutputTokens :=
          match openaiRequest.max_tokens with
          | some n => if n = 0 then none else some n
          | none => none,
        temperature :=
          match openaiRequest.temperature with
          | some q => if q = 0 then none else some q
          | none => none },
    safetySettings :=
      [{ category := "HARM_CATEGORY_HARASSMENT", threshold := "BLOCK_NONE" },
       { category := "HARM_CATEGORY_HATE_SPEECH", threshold := "BLOCK_NONE" },
       { category := "HARM_CATEGORY_SEXUALLY_EXPLICIT", threshold := "BLOCK_NONE" },
       { category := "HARM_CATEGORY_DANGEROUS_CONTENT", threshold := "BLOCK_NONE" }] }

/-! ## Dialect-B response (Gemini single-shot) -/

/-- One part of a Gemini candidate's content; `text` may be absent. -/
structure RespPart where
  text : Option String := none

/-- The content of a Gemini candidate; `parts` may be absent. -/
structure RespContent where
  parts : Option (List RespPart) := none

/-- One Gemini candidate; `content` may be absent. -/
structure Candidate where
  content : Option RespContent := none

/-- The Gemini `usageMetadata` record with possibly-absent counters. -/
structure UsageMetadata where
  promptTokenCount : Option Nat := none
  candidatesTokenCount : Option Nat := none
  totalTokenCount : Option Nat := none

/-- A parsed Gemini single-shot response (the only fields the translator
consumes); every link of the access path may be absent. -/
structure GenerationResponse where
  candidates : Option (List Candidate) := none
  usageMetadata : Option UsageMetadata := none

/-- The extraction `geminiResponse.candidates?.[0]?.content?.parts?.[0]?.text || ''`:
optional chaining defaults every absent link to `undefined`, and `|| ''`
turns `undefined` (and the already-empty string) into `''`. -/
def extractText (geminiResponse : GenerationResponse) : String :=
  (do
    let cs ← geminiResponse.candidates
    let cand ← cs[0]?
    let content ← cand.content
    let ps ← content.parts
    let p ← ps[0]?
    p.text).getD ""

/-! ## Dialect-A response (OpenAI single-shot) -/

/-- The assistant message of a ChatResponse choice. -/
structure ChatMessage where
  role : String
  content : String

/-- One ChatResponse choice. -/
structure Choice where
  index : Nat
  message : ChatMessage
  finish_reason : String

/-- The ChatResponse usage counters. -/
structure Usage where
  prompt_tokens : Nat
  completion_tokens : Nat
  total_tokens : Nat

/-- The outbound single-shot ChatResponse. -/
structure ChatResponse where
  id : String
  object : String
  created : Nat
  model : String
  choices : List Choice
  usage : Usage

/-- `choices[0].message.content` of a ChatResponse. -/
def responseContent (r : ChatResponse) : Option String :=
  (r.choices[0]?).map (fun c => c.message.content)

/-- The fixed placeholder substituted for empty content. -/
def meowText : String := "喵~"

/-- Embeds `getApiKey` (identical in all three source files): the
credential is the `Authorization` header after a required `'Bearer '`
prefix (`startsWith`/`substring(7)` are modelled character-wise; the
prefix is ASCII, so JS's UTF-16 index 7 is character index 7). -/
def getApiKey (authHeader : Option String) : Option String :=
  match authHeader with
  | none => none
  | some h =>
    if h.toList.take 7 = ("Bearer ").toList then some ((h.toList.drop 7).asString) else none

/-- Shared shape of both `geminiToOpenAIResponse` variants, given the
final `content` string.  `id` and `created` are the identifier and Unix
timestamp the source synthesises from `Math.random()` and `Date.now()`;
the embedding takes them as parameters.  `|| 0` on each usage counter maps
an absent counter to `0` (and `0` to itself). -/
def mkChatResponse (geminiResponse : GenerationResponse) (model : String)
    (id : String) (created : Nat) (content : String) : ChatResponse :=
  { id := id,
    object := "chat.completion",
    created := created,
    model := model,
    choices :=
      [{ index := 0,
         message := { role := "assistant", content := content },
         finish_reason := "stop" }],
    usage :=
      { prompt_tokens := ((geminiResponse.usageMetadata.bind (·.promptTokenCount)).getD 0),
        completion_tokens := ((geminiResponse.usageMetadata.bind (·.candidatesTokenCount)).getD 0),
        total_tokens := ((geminiResponse.usageMetadata.bind (·.totalTokenCount)).getD 0) } }

namespace Converter

/-- Embeds `geminiToOpenAIResponse` of
`src/gemini-converter-vercel/api/index.js`: the extracted content is
replaced by the placeholder when `content.trim()` is empty (the
empty-content fallback policy). -/
def geminiToOpenAIResponse (geminiResponse : GenerationResponse) (model : String)
    (id : String) (created : Nat) : ChatResponse :=
  let content0 := extractText geminiResponse
  let content := if (jsTrim content0).isEmpty then meowText else content0
  mkChatResponse geminiResponse model id created content

end Converter

namespace Baseline

/-- Embeds `geminiToOpenAIResponse` of `src/unnamed/part_000` (also
textually identical in `src/unnamed/part_001`): the extracted content is
passed through unchanged. -/
def geminiToOpenAIResponse (geminiResponse : GenerationResponse) (model : String)
    (id : String) (created : Nat) : ChatResponse :=
  mkChatResponse geminiResponse model id created (extractText geminiResponse)

end Baseline

/-! ## Dialect-A streaming chunks and the emitted event stream -/

/-- The `delta` record of a ChatChunk choice; the data-phase chunk stores
the extracted JS value (a string in every well-formed frame), the terminal
chunk stores nothing. -/
structure Delta where
  content : Option JsValue := none

/-- One ChatChunk choice. -/
structure ChunkChoice where
  index : Nat
  delta : Delta
  finish_reason : Option String

/-- One streamed ChatChunk. -/
structure ChatChunk where
  id : String
  object : String
  created : Nat
  model : String
  choices : List ChunkChoice

/-- One observable action on the outgoing SSE stream: writing a framed
ChatChunk, writing the literal `data: [DONE]` sentinel frame, or closing
the stream (`res.end()`). -/
inductive OutEvent where
  | chunk (c : ChatChunk)
  | done
  | close

namespace Converter

/-- The `openaiChunk` object built for one non-empty extracted content
value (`transformGeminiStreamToOpenAIStream`, data handler). -/
def mkContentChunk (id : String) (created : Nat) (model : String)
    (content : JsValue) : ChatChunk :=
  { id := id,
    object := "chat.completion.chunk",
    created := created,
    model := model,
    choices := [{ index := 0, delta := { content := some content }, finish_reason := none }] }

/-- The `meowChunk` object: the placeholder content chunk emitted at
stream end when no content was ever sent. -/
def meowChunk (id : String) (created : Nat) (model : String) : ChatChunk :=
  { id := id,
    object := "chat.completion.chunk",
    created := created,
    model := model,
    choices := [{ index := 0, delta := { content := some (.str meowText) }, finish_reason := none }] }

/-- The `doneChunk` object: the terminal chunk with an empty delta and
`finish_reason: 'stop'`. -/
def doneChunk (id : String) (created : Nat) (model : String) : ChatChunk :=
  { id := id,
    object := "chat.completion.chunk",
    created := created,
    model := model,
    choices := [{ index := 0, delta := {}, finish_reason := some "stop" }] }

/-- `geminiChunk.candidates?.[0]?.content?.parts?.[0]?.text || ''` on a
parsed stream frame: any broken link (including a `null` frame, whose
property access throws into the surrounding `catch`, observationally the
same discard) and any falsy text yield the empty string. -/
def extractChunkContent (geminiChunk : JsValue) : JsValue :=
  match (jsGetField geminiChunk "candidates").bind (jsGetIndex · 0)
      |>.bind (jsGetField · "content") |>.bind (jsGetField · "parts")
      |>.bind (jsGetIndex · 0) |>.bind (jsGetField · "text") with
  | some t => if jsTruthy t then t else .str ""
  | none => .str ""

/-- `.replace(/^data: /, '')`: strip one leading `data: ` event prefix if
present. -/
def stripDataTag (cs : List Char) : List Char :=
  if cs.take 6 = "data: ".toList then cs.drop 6 else cs

/-- `buffer.indexOf('\n\n')`: position of the first blank-line delimiter,
`none` for JS's `-1`. -/
def findBoundary : List Char → Option Nat
  | '\n' :: '\n' :: _ => some 0
  | _ :: rest => (findBoundary rest).map (· + 1)
  | [] => none

/-- Mutable per-stream state of `transformGeminiStreamToOpenAIStream`:
the accumulating text buffer and the `hasSentContent` flag. -/
structure StreamState where
  buffer : List Char
  hasSentContent : Bool

/-- The `while (boundary !== -1)` loop of the data handler: cut the frame
before the delimiter, strip the event prefix, `JSON.parse` it (a failure
is swallowed by the `catch` and the frame discarded), and emit one content
chunk when the extracted content is truthy.  Returns the remaining buffer,
the updated `hasSentContent` flag and the emitted events in order.  Fuel
keeps the recursion structural; each iteration consumes `boundary + 2 ≥ 2`
buffer characters, so fuel `|buffer| + 1` never runs out. -/
def processLoop (id : String) (created : Nat) (model : String) :
    Nat → List Char → Bool → List Char × Bool × List OutEvent
  | 0, buffer, hasSentContent => (buffer, hasSentContent, [])
  | fuel + 1, buffer, hasSentContent =>
    match findBoundary buffer with
    | none => (buffer, hasSentContent, [])
    | some boundary =>
      let jsonString := stripDataTag (buffer.take boundary)
      let buffer2 := buffer.drop (boundary + 2)
      match jsonParse jsonString with
      | none => processLoop id created model fuel buffer2 hasSentContent
      | some geminiChunk =>
        let content := extractChunkContent geminiChunk
        if jsTruthy content then
          let r := processLoop id created model fuel buffer2 true
          (r.1, r.2.1, OutEvent.chunk (mkContentChunk id created model content) :: r.2.2)
        else
          processLoop id created model fuel buffer2 hasSentContent

/-- The `geminiStream.on('data', ...)` handler: append the delivered text
to the buffer and run the frame loop. -/
def onData (id : String) (created : Nat) (model : String)
    (st : StreamState) (chunk : List Char) : StreamState × List OutEvent :=
  let buffer := st.buffer ++ chunk
  let r := processLoop id created model (buffer.length + 1) buffer st.hasSentContent
  ({ buffer := r.1, hasSentContent := r.2.1 }, r.2.2)

/-- The `geminiStream.on('end', ...)` handler: the placeholder chunk when
nothing was sent, then the terminal chunk, the `[DONE]` sentinel frame and
the stream close. -/
def onEnd (id : String) (created : Nat) (model : String) (st : StreamState) : List OutEvent :=
  (if !st.hasSentContent then [OutEvent.chunk (meowChunk id created model)] else []) ++
  [OutEvent.chunk (doneChunk id created model), OutEvent.done, OutEvent.close]

/-- Deliver a sequence of byte chunks to the data handler in order,
threading the stream state and concatenating the emitted events. -/
def runData (id : String) (created : Nat) (model : String) :
    StreamState → List (List Char) → StreamState × List OutEvent
  | st, [] => (st, [])
  | st, c :: cs =>
    let r1 := onData id created model st c
    let r2 := runData id created model r1.1 cs
    (r2.1, r1.2 ++ r2.2)

/-- Embeds `transformGeminiStreamToOpenAIStream` of
`src/gemini-converter-vercel/api/index.js` applied to a complete backend
stream, given as the list of its delivered text chunks: all data events in
arrival order, then the end event.  `id` and `created` are the values the
source generates once at stream start. -/
def transformGeminiStreamToOpenAIStream (id : String) (created : Nat) (model : String)
    (chunks : List (List Char)) : List OutEvent :=
  let r := runData id created model { buffer := [], hasSentContent := false } chunks
  r.2 ++ onEnd id created model r.1

/-- Frame decomposition of a buffer: the complete blank-line-delimited
frames (exactly the ones the data-handler loop cuts) and the unconsumed
remainder.  Same fuel discipline as `processLoop`. -/
def splitFrames : Nat → List Char → List (List Char) × List Char
  | 0, buffer => ([], buffer)
  | fuel + 1, buffer =>
    match findBoundary buffer with
    | none => ([], buffer)
    | some boundary =>
      let r := splitFrames fuel (buffer.drop (boundary + 2))
      (buffer.take boundary :: r.1, r.2)

/-- All frames a delivered chunk sequence completes, in order: the frames
of the backend stream as the re-framer cuts them. -/
def dataFrames : List Char → List (List Char) → List (List Char)
  | _, [] => []
  | buffer, c :: cs =>
    let b := buffer ++ c
    let r := splitFrames (b.length + 1) b
    r.1 ++ dataFrames r.2 cs

end Converter

namespace Vercel

/-- Outcome of the `/v1/chat/completions` handler body, up to the one
outbound backend call: either an HTTP rejection with a status code and the
`error.message` string, or the translated backend request together with
the effective model (only `forward` carries a translated request, so a
`reject` outcome happened before any translation or backend call). -/
inductive HandlerStep where
  | reject (status : Nat) (errorMessage : String)
  | forward (backendRequest : GenerationRequest) (model : String)

/-- Embeds the `app.post('/v1/chat/completions', ...)` handler of
`src/unnamed/part_001` up to its backend call: a missing credential is
rejected with 401; then a truthy `stream` flag is rejected with 400 before
`openaiToGeminiRequest` runs; otherwise the translated request is
forwarded with the `model || 'gemini-1.5-flash'` default. -/
def chatCompletions (authHeader : Option String) (body : ChatRequest) : HandlerStep :=
  match getApiKey authHeader with
  | none => HandlerStep.reject 401 "Authorization header is missing or invalid."
  | some _ =>
    if body.stream.getD false then
      HandlerStep.reject 400 "Streaming is not supported in this Vercel deployment."
    else
      HandlerStep.forward (openaiToGeminiRequest body) (jsOrString body.model "gemini-1.5-flash")

end Vercel

/-! ## Concrete sample inputs used by the witnesses -/

/-- A request exercising all three spec roles and an unknown role. -/
def sampleRequest : ChatRequest :=
  { messages := [{ role := "system", content := "be brief" },
                 { role := "user", content := "hi" },
                 { role := "assistant", content := "hello" },
                 { role := "tool", content := "x" }] }

/-- A request with an explicit `max_tokens: 0`. -/
def sampleZeroTokens : ChatRequest :=
  { messages := [], max_tokens := some 0 }

/-- A request with truthy `max_tokens` and `temperature`. -/
def sampleFiveTokens : ChatRequest :=
  { messages := [], max_tokens := some 5, temperature := some 1 }

/-- A backend response whose only text is whitespace. -/
def sampleBlankResponse : GenerationResponse :=
  { candidates := some [{ content := some { parts := some [{ text := some "  \t" }] } }] }

/-- A backend response whose text is `"hello"`. -/
def sampleHelloResponse : GenerationResponse :=
  { candidates := some [{ content := some { parts := some [{ text := some "hello" }] } }] }

/-- First delivery of the split-frame example: a complete `data: ` frame
whose JSON carries the text `"Hi"`, followed by a single newline — the
blank-line delimiter is still incomplete. -/
def splitFrameChunk1 : List Char :=
  ("data: \x7b\"candidates\":[\x7b\"content\":\x7b\"parts\":[\x7b\"text\":\"Hi\"\x7d]\x7d\x7d]\x7d\n").toList

/-- Second delivery of the split-frame example: the newline completing the
blank-line delimiter. -/
def splitFrameChunk2 : List Char :=
  ("\n").toList

/-- A delivery forming one complete frame whose payload is not JSON. -/
def badFrameChunk : List Char :=
  ("nope\n\n").toList

/-! ## Helper lemmas about the streaming loop -/

namespace Converter

/-- The `hasSentContent` flag after the frame loop is the incoming flag
or-ed with "some event was emitted": the loop raises the flag exactly when
it writes a content chunk. -/
theorem processLoop_flag (id : String) (created : Nat) (model : String) :
    ∀ fuel buffer hs,
      (processLoop id created model fuel buffer hs).2.1 =
        (hs || !(processLoop id created model fuel buffer hs).2.2.isEmpty) := by
  intro fuel
  induction fuel with
  | zero => intro buffer hs; simp [processLoop]
  | succ fuel ih =>
    intro buffer hs
    simp only [processLoop]
    cases hb : findBoundary buffer with
    | none => simp
    | some boundary =>
      simp only []
      cases hp : jsonParse (stripDataTag (buffer.take boundary)) with
      | none => simpa using ih _ _
      | some geminiChunk =>
        by_cases ht : jsTruthy (extractChunkContent geminiChunk) = true
        · simp only [ht, if_true]
          rw [ih]
          simp
        · simp only [Bool.not_eq_true] at ht
          simp only [ht, Bool.false_eq_true, if_false]
          simpa using ih _ _

/-- Every chunk the frame loop emits carries the `id` and `created` fixed
at stream start. -/
theorem processLoop_stable (id : String) (created : Nat) (model : String) :
    ∀ fuel buffer hs c,
      OutEvent.chunk c ∈ (processLoop id created model fuel buffer hs).2.2 →
        c.id = id ∧ c.created = created := by
  intro fuel
  induction fuel with
  | zero => intro buffer hs c hc; simp [processLoop] at hc
  | succ fuel ih =>
    intro buffer hs c hc
    simp only [processLoop] at hc
    cases hb : findBoundary buffer with
    | none => rw [hb] at hc; simp at hc
    | some boundary =>
      rw [hb] at hc
      simp only [] at hc
      cases hp : jsonParse (stripDataTag (buffer.take boundary)) with
      | none =>
        rw [hp] at hc
        exact ih _ _ _ hc
      | some geminiChunk =>
        rw [hp] at hc
        by_cases ht : jsTruthy (extractChunkContent geminiChunk) = true
        · simp only [ht, if_true, List.mem_cons] at hc
          rcases hc with hc | hc
          · cases hc; exact ⟨rfl, rfl⟩
          · exact ih _ _ _ hc
        · simp only [Bool.not_eq_true] at ht
          simp only [ht, Bool.false_eq_true, if_false] at hc
          exact ih _ _ _ hc

/-- The data handler neither changes the flag nor emits anything when it
emits no event. -/
theorem onData_flag (id : String) (created : Nat) (model : String)
    (st : StreamState) (chunk : List Char)
    (h : (onData id created model st chunk).2 = []) :
    (onData id created model st chunk).1.hasSentContent = st.hasSentContent := by
  have hp := processLoop_flag id created model
    ((st.buffer ++ chunk).length + 1) (st.buffer ++ chunk) st.hasSentContent
  have hf : (onData id created model st chunk).1.hasSentContent =
      (processLoop id created model ((st.buffer ++ chunk).length + 1)
        (st.buffer ++ chunk) st.hasSentContent).2.1 := rfl
  have he : (onData id created model st chunk).2 =
      (processLoop id created model ((st.buffer ++ chunk).length + 1)
        (st.buffer ++ chunk) st.hasSentContent).2.2 := rfl
  rw [hf, hp, ← he, h]
  simp

/-- A whole delivery sequence that emits no event leaves the
`hasSentContent` flag unchanged. -/
theorem runData_flag (id : String) (created : Nat) (model : String) :
    ∀ chunks (st : StreamState),
      (runData id created model st chunks).2 = [] →
      (runData id created model st chunks).1.hasSentContent = st.hasSentContent := by
  intro chunks
  induction chunks with
  | nil => intro st h; simp [runData]
  | cons c cs ih =>
    intro st h
    simp only [runData] at h ⊢
    rcases List.append_eq_nil.mp h with ⟨h1, h2⟩
    rw [ih _ h2, onData_flag id created model st c h1]

/-- Every chunk emitted by a delivery sequence carries the fixed `id` and
`created`. -/
theorem runData_stable (id : String) (created : Nat) (model : String) :
    ∀ chunks (st : StreamState) c,
      OutEvent.chunk c ∈ (runData id created model st chunks).2 →
        c.id = id ∧ c.created = created := by
  intro chunks
  induction chunks with
  | nil => intro st c hc; simp [runData] at hc
  | cons ch cs ih =>
    intro st c hc
    simp only [runData, List.mem_append] at hc
    rcases hc with hc | hc
    · exact processLoop_stable id created model _ _ _ _ hc
    · exact ih _ _ hc

/-- If every frame the loop cuts from a buffer fails to parse, the loop
emits nothing, keeps the flag, and leaves exactly the frame remainder. -/
theorem processLoop_framesFail (id : String) (created : Nat) (model : String) :
    ∀ fuel buffer hs,
      (∀ f ∈ (splitFrames fuel buffer).1, jsonParse (stripDataTag f) = none) →
      processLoop id created model fuel buffer hs =
        ((splitFrames fuel buffer).2, hs, []) := by
  intro fuel
  induction fuel with
  | zero => intro buffer hs _; simp [processLoop, splitFrames]
  | succ fuel ih =>
    intro buffer hs h
    simp only [processLoop, splitFrames]
    cases hb : findBoundary buffer with
    | none => simp
    | some boundary =>
      have hhead : jsonParse (stripDataTag (buffer.take boundary)) = none := by
        apply h
        simp [splitFrames, hb]
      have htail : ∀ f ∈ (splitFrames fuel (buffer.drop (boundary + 2))).1,
          jsonParse (stripDataTag f) = none := by
        intro f hf
        apply h
        simp [splitFrames, hb]
        exact Or.inr hf
      simp only [hhead]
      exact ih _ _ htail

/-- If every completed frame of a delivery sequence fails to parse, the
data phase emits nothing and the flag never rises. -/
theorem runData_framesFail (id : String) (created : Nat) (model : String) :
    ∀ chunks (st : StreamState),
      (∀ f ∈ dataFrames st.buffer chunks, jsonParse (stripDataTag f) = none) →
      (runData id created model st chunks).2 = [] ∧
      (runData id created model st chunks).1.hasSentContent = st.hasSentContent := by
  intro chunks
  induction chunks with
  | nil => intro st _; simp [runData]
  | cons c cs ih =>
    intro st h
    simp only [dataFrames, List.mem_append] at h
    have h1 : ∀ f ∈ (splitFrames ((st.buffer ++ c).length + 1) (st.buffer ++ c)).1,
        jsonParse (stripDataTag f) = none := fun f hf => h f (Or.inl hf)
    have hod : onData id created model st c =
        ({ buffer := (splitFrames ((st.buffer ++ c).length + 1) (st.buffer ++ c)).2,
           hasSentContent := st.hasSentContent }, []) := by
      simp only [onData]
      rw [processLoop_framesFail id created model _ _ _ h1]
    have h2 : ∀ f ∈ dataFrames
        (splitFrames ((st.buffer ++ c).length + 1) (st.buffer ++ c)).2 cs,
        jsonParse (stripDataTag f) = none := fun f hf => h f (Or.inr hf)
    have hrec := ih { buffer := (splitFrames ((st.buffer ++ c).length + 1) (st.buffer ++ c)).2,
                      hasSentContent := st.hasSentContent } h2
    have hr : runData id created model st (c :: cs) =
        ((runData id created model (onData id created model st c).1 cs).1,
         (onData id created model st c).2 ++
           (runData id created model (onData id created model st c).1 cs).2) := rfl
    rw [hr, hod]
    exact ⟨by simpa using hrec.1, by simpa using hrec.2⟩

end Converter

/-! ## The claims -/

/-- C1: `openaiToGeminiRequest` maps each message independently and in
order — the output has exactly one `Content` per input message, at the
same index, with role `"model"` for role `"assistant"` and role `"user"`
for every other role string, and the message content as a single-part
text entry. -/
theorem claim_C1 (r : ChatRequest) :
    (openaiToGeminiRequest r).contents.length = r.messages.length ∧
    ∀ i (h : i < r.messages.length),
      (openaiToGeminiRequest r).contents[i]? =
        some { role := if (r.messages[i]).role = "assistant" then "model" else "user",
               parts := [{ text := (r.messages[i]).content }] } := by
  refine ⟨by simp [openaiToGeminiRequest], ?_⟩
  intro i h
  simp [openaiToGeminiRequest, List.getElem?_eq_getElem h]

/-- Witness for C1 at a concrete request covering the roles `"system"`,
`"user"`, `"assistant"` and an unknown role `"tool"`. -/
theorem claim_C1_witness :
    (openaiToGeminiRequest sampleRequest).contents.length = 4 ∧
    (openaiToGeminiRequest sampleRequest).contents[0]? =
      some { role := "user", parts := [{ text := "be brief" }] } ∧
    (openaiToGeminiRequest sampleRequest).contents[2]? =
      some { role := "model", parts := [{ text := "hello" }] } ∧
    (openaiToGeminiRequest sampleRequest).contents[3]? =
      some { role := "user", parts := [{ text := "x" }] } :=
  ⟨(claim_C1 sampleRequest).1,
   (claim_C1 sampleRequest).2 0 (by decide),
   (claim_C1 sampleRequest).2 2 (by decide),
   (claim_C1 sampleRequest).2 3 (by decide)⟩

/-- C2: `openaiToGeminiRequest` omits `maxOutputTokens` whenever
`max_tokens` is absent or `0` (falsy), and copies it whenever it is
present and non-zero; the same rule holds for `temperature`. -/
theorem claim_C2 (r : ChatRequest) :
    ((r.max_tokens = none ∨ r.max_tokens = some 0) →
        (openaiToGeminiRequest r).generationConfig.maxOutputTokens = none) ∧
    (∀ n : Int, r.max_tokens = some n → n ≠ 0 →
        (openaiToGeminiRequest r).generationConfig.maxOutputTokens = some n) ∧
    ((r.temperature = none ∨ r.temperature = some 0) →
        (openaiToGeminiRequest r).generationConfig.temperature = none) ∧
    (∀ q : Rat, r.temperature = some q → q ≠ 0 →
        (openaiToGeminiRequest r).generationConfig.temperature = some q) := by
  refine ⟨?_, ?_, ?_, ?_⟩
  · rintro (h | h) <;> simp [openaiToGeminiRequest, h]
  · intro n hn hnz
    simp [openaiToGeminiRequest, hn, hnz]
  · rintro (h | h) <;> simp [openaiToGeminiRequest, h]
  · intro q hq hqz
    simp [openaiToGeminiRequest, hq, hqz]

/-- Witness for C2: explicit `max_tokens: 0` is omitted, truthy
`max_tokens: 5` and `temperature: 1` are copied, absent `temperature`
is omitted. -/
theorem claim_C2_witness :
    (openaiToGeminiRequest sampleZeroTokens).generationConfig.maxOutputTokens = none ∧
    (openaiToGeminiRequest sampleZeroTokens).generationConfig.temperature = none ∧
    (openaiToGeminiRequest sampleFiveTokens).generationConfig.maxOutputTokens = some 5 ∧
    (openaiToGeminiRequest sampleFiveTokens).generationConfig.temperature = some 1 :=
  ⟨(claim_C2 sampleZeroTokens).1 (Or.inr rfl),
   (claim_C2 sampleZeroTokens).2.2.1 (Or.inl rfl),
   (claim_C2 sampleFiveTokens).2.1 5 rfl (by decide),
   (claim_C2 sampleFiveTokens).2.2.2 1 rfl (by decide)⟩

/-- C3: when the extracted backend text is empty or all-whitespace, the
fallback variant substitutes the fixed placeholder and the baseline
variant returns the extracted string unchanged. -/
theorem claim_C3 (g : GenerationResponse) (model id : String) (created : Nat)
    (h : (jsTrim (extractText g)).isEmpty = true) :
    responseContent (Converter.geminiToOpenAIResponse g model id created) = some meowText ∧
    responseContent (Baseline.geminiToOpenAIResponse g model id created) =
      some (extractText g) := by
  constructor
  · simp [responseContent, Converter.geminiToOpenAIResponse, mkChatResponse, h]
  · simp [responseContent, Baseline.geminiToOpenAIResponse, mkChatResponse]

/-- Witness for C3 at a backend response whose text is `"  \t"`. -/
theorem claim_C3_witness :
    (jsTrim (extractText sampleBlankResponse)).isEmpty = true ∧
    responseContent (Converter.geminiToOpenAIResponse sampleBlankResponse "m" "id0" 7) =
      some meowText ∧
    responseContent (Baseline.geminiToOpenAIResponse sampleBlankResponse "m" "id0" 7) =
      some "  \t" :=
  ⟨rfl,
   (claim_C3 sampleBlankResponse "m" "id0" 7 rfl).1,
   (claim_C3 sampleBlankResponse "m" "id0" 7 rfl).2⟩

/-- C8: a backend response whose extracted text is `"hello"` round-trips
unchanged through both single-shot variants. -/
theorem claim_C8 (g : GenerationResponse) (model id : String) (created : Nat)
    (h : extractText g = "hello") :
    responseContent (Converter.geminiToOpenAIResponse g model id created) = some "hello" ∧
    responseContent (Baseline.geminiToOpenAIResponse g model id created) = some "hello" := by
  have ht : (jsTrim "hello").isEmpty = false := rfl
  constructor
  · simp [responseContent, Converter.geminiToOpenAIResponse, mkChatResponse, h, ht]
  · simp [responseContent, Baseline.geminiToOpenAIResponse, mkChatResponse, h]

/-- Witness for C8 at a concrete backend response carrying `"hello"`. -/
theorem claim_C8_witness :
    responseContent (Converter.geminiToOpenAIResponse sampleHelloResponse "m" "id0" 7) =
      some "hello" ∧
    responseContent (Baseline.geminiToOpenAIResponse sampleHelloResponse "m" "id0" 7) =
      some "hello" :=
  claim_C8 sampleHelloResponse "m" "id0" 7 rfl

/-- C9: in the Vercel variant, a request bearing a valid credential whose
`stream` flag is truthy is rejected with status 400 and an error body:
the handler outcome is a rejection, not a `forward`, so no request
translation or backend call happens. -/
theorem claim_C9 (authHeader : Option String) (body : ChatRequest)
    (hauth : (getApiKey authHeader).isSome = true)
    (hstream : body.stream.getD false = true) :
    Vercel.chatCompletions authHeader body =
      Vercel.HandlerStep.reject 400 "Streaming is not supported in this Vercel deployment." := by
  rcases hk : getApiKey authHeader with _ | k
  · rw [hk] at hauth; simp at hauth
  · simp [Vercel.chatCompletions, hk, hstream]

/-- Witness for C9 at a concrete authorized streaming request. -/
theorem claim_C9_witness :
    Vercel.chatCompletions (some "Bearer k") { messages := [], stream := some true } =
      Vercel.HandlerStep.reject 400 "Streaming is not supported in this Vercel deployment." :=
  claim_C9 (some "Bearer k") { messages := [], stream := some true } rfl rfl

/-- C4: the re-framer emits nothing while the blank-line delimiter of a
frame has not yet arrived — a delivery leaving the buffer without `\n\n`
only extends the buffer — and on the concrete split delivery of a
`data: `-prefixed frame carrying text `"Hi"` followed by the delimiter
newline, the first delivery emits nothing and the second emits exactly one
content chunk with `delta.content = "Hi"`. -/
theorem claim_C4 (id model : String) (created : Nat) (st : Converter.StreamState)
    (chunk : List Char)
    (h : Converter.findBoundary (st.buffer ++ chunk) = none) :
    Converter.onData id created model st chunk =
      ({ buffer := st.buffer ++ chunk, hasSentContent := st.hasSentContent }, []) ∧
    (Converter.onData id created model ⟨[], false⟩ splitFrameChunk1).2 = [] ∧
    (Converter.onData id created model
        (Converter.onData id created model ⟨[], false⟩ splitFrameChunk1).1
        splitFrameChunk2).2 =
      [OutEvent.chunk (Converter.mkContentChunk id created model (JsValue.str "Hi"))] := by
  refine ⟨?_, rfl, rfl⟩
  simp [Converter.onData, Converter.processLoop, h]

/-- Witness for C4: a delivery `"abc"` with no delimiter in sight only
buffers. -/
theorem claim_C4_witness :
    Converter.findBoundary (([] : List Char) ++ ("abc").toList) = none ∧
    Converter.onData "i" 5 "m" ⟨[], false⟩ (("abc").toList) =
      ({ buffer := [] ++ ("abc").toList, hasSentContent := false }, []) :=
  ⟨rfl, (claim_C4 "i" "m" 5 ⟨[], false⟩ (("abc").toList) rfl).1⟩

/-- C5: a stream whose data phase emitted nothing ends, with the fallback
policy, in exactly the order: placeholder content chunk, terminal chunk
(`finish_reason = "stop"`), `[DONE]` sentinel, stream close; and every
stream's emission sequence ends with the sentinel followed by the close. -/
theorem claim_C5 (id model : String) (created : Nat) (chunks : List (List Char))
    (h : (Converter.runData id created model ⟨[], false⟩ chunks).2 = []) :
    Converter.transformGeminiStreamToOpenAIStream id created model chunks =
      [OutEvent.chunk (Converter.meowChunk id created model),
       OutEvent.chunk (Converter.doneChunk id created model),
       OutEvent.done, OutEvent.close] ∧
    ∀ cs : List (List Char), ∃ evs : List OutEvent,
      Converter.transformGeminiStreamToOpenAIStream id created model cs =
        evs ++ [OutEvent.done, OutEvent.close] := by
  constructor
  · have hflag := Converter.runData_flag id created model chunks ⟨[], false⟩ h
    simp only [Converter.transformGeminiStreamToOpenAIStream]
    rw [h]
    simp [Converter.onEnd, hflag]
  · intro cs
    refine ⟨(Converter.runData id created model ⟨[], false⟩ cs).2 ++
      ((if !(Converter.runData id created model ⟨[], false⟩ cs).1.hasSentContent then
          [OutEvent.chunk (Converter.meowChunk id created model)] else []) ++
        [OutEvent.chunk (Converter.doneChunk id created model)]), ?_⟩
    simp [Converter.transformGeminiStreamToOpenAIStream, Converter.onEnd]

/-- Witness for C5: the empty backend stream. -/
theorem claim_C5_witness :
    Converter.transformGeminiStreamToOpenAIStream "i" 5 "m" [] =
      [OutEvent.chunk (Converter.meowChunk "i" 5 "m"),
       OutEvent.chunk (Converter.doneChunk "i" 5 "m"),
       OutEvent.done, OutEvent.close] :=
  (claim_C5 "i" "m" 5 [] rfl).1

/-- C6: when every completed frame of the stream fails to parse as JSON,
the data phase emits nothing (each frame is silently discarded, and the
total functions of this embedding cannot crash), and the stream still ends
with the terminal chunk, the `[DONE]` sentinel and the close (preceded by
the fallback chunk, since nothing was sent). -/
theorem claim_C6 (id model : String) (created : Nat) (chunks : List (List Char))
    (h : ∀ f ∈ Converter.dataFrames [] chunks, jsonParse (Converter.stripDataTag f) = none) :
    (Converter.runData id created model ⟨[], false⟩ chunks).2 = [] ∧
    Converter.transformGeminiStreamToOpenAIStream id created model chunks =
      [OutEvent.chunk (Converter.meowChunk id created model),
       OutEvent.chunk (Converter.doneChunk id created model),
       OutEvent.done, OutEvent.close] := by
  have hrun := Converter.runData_framesFail id created model chunks ⟨[], false⟩ h
  refine ⟨hrun.1, ?_⟩
  simp only [Converter.transformGeminiStreamToOpenAIStream]
  rw [hrun.1]
  simp [Converter.onEnd, hrun.2]

/-- Witness for C6: one delivery forming the single unparseable frame
`"nope"`. -/
theorem claim_C6_witness :
    (Converter.runData "i" 5 "m" ⟨[], false⟩ [badFrameChunk]).2 = [] ∧
    Converter.transformGeminiStreamToOpenAIStream "i" 5 "m" [badFrameChunk] =
      [OutEvent.chunk (Converter.meowChunk "i" 5 "m"),
       OutEvent.chunk (Converter.doneChunk "i" 5 "m"),
       OutEvent.done, OutEvent.close] :=
  claim_C6 "i" "m" 5 [badFrameChunk] (by
    intro f hf
    have he : Converter.dataFrames [] [badFrameChunk] = [("nope").toList] := rfl
    rw [he, List.mem_singleton] at hf
    subst hf
    rfl)

/-- C7: every ChatChunk the re-framer emits during one exchange — content
chunks, the fallback chunk and the terminal chunk — carries the `id` and
`created` fixed once at stream start. -/
theorem claim_C7 (id model : String) (created : Nat) (chunks : List (List Char)) :
    ∀ c : ChatChunk,
      OutEvent.chunk c ∈ Converter.transformGeminiStreamToOpenAIStream id created model chunks →
        c.id = id ∧ c.created = created := by
  intro c hc
  simp only [Converter.transformGeminiStreamToOpenAIStream, List.mem_append] at hc
  rcases hc with hc | hc
  · exact Converter.runData_stable id created model chunks _ c hc
  · simp only [Converter.onEnd, List.mem_append] at hc
    rcases hc with hc | hc
    · split at hc
      · simp only [List.mem_singleton] at hc
        cases hc
        exact ⟨rfl, rfl⟩
      · simp at hc
    · simp only [List.mem_cons, List.not_mem_nil, or_false] at hc
      rcases hc with hc | hc | hc
      · cases hc
        exact ⟨rfl, rfl⟩
      · cases hc
      · cases hc

/-- Witness for C7: the fallback chunk of the empty stream carries the
fixed `id` and `created`. -/
theorem claim_C7_witness :
    (Converter.meowChunk "i" 5 "m").id = "i" ∧ (Converter.meowChunk "i" 5 "m").created = 5 :=
  claim_C7 "i" "m" 5 [] (Converter.meowChunk "i" 5 "m") (List.mem_cons_self _ _)

/-- C10: in the fallback variant, the single-shot response content is
never empty or all-whitespace — it is the extracted backend text (with a
non-whitespace character) or the fixed placeholder. -/
theorem claim_C10 (g : GenerationResponse) (model id : String) (created : Nat) :
    ∃ s, responseContent (Converter.geminiToOpenAIResponse g model id created) = some s ∧
      (jsTrim s).isEmpty = false ∧ (s = extractText g ∨ s = meowText) := by
  by_cases h : (jsTrim (extractText g)).isEmpty = true
  · exact ⟨meowText,
      by simp [responseContent, Converter.geminiToOpenAIResponse, mkChatResponse, h],
      by decide, Or.inr rfl⟩
  · refine ⟨extractText g,
      by simp [responseContent, Converter.geminiToOpenAIResponse, mkChatResponse, h],
      ?_, Or.inl rfl⟩
    simpa using h

end GeminiProxy
